import Mathlib

/-!
Shallow embedding of the client-side session and authenticated-request
pipeline of the trading-app repository.

Embedded source files:
* `api.js` (the axios instance with request/response interceptors) — the
  RequestPipeline: `pipelineAttach`, `pipelineSend`, and the concurrent
  interceptor semantics `stepTask` / `runSchedule`.
* `AuthContext.js` (the AuthProvider) — the SessionManager:
  `initAuth`, `login` / `loginStorage`, `logout`, `refreshAccessToken`.

Network endpoints and `jwt_decode` are environment parameters; the state
visible to the code (localStorage token entries, React auth state) is
explicit.  Log fields (`dispatchLog`, `refreshLog`, `redirects`,
`storeWrites`) record the observable actions the code performs, in order.
-/

namespace TradingApp

/-- The two localStorage entries `accessToken` / `refreshToken`
(`none` = key absent). -/
structure Store where
  accessToken : Option String
  refreshToken : Option String
deriving DecidableEq, Repr

/-- Response of a domain-API dispatch: 2xx body, a 401, or any other error
status. -/
inductive Resp where
  | ok (body : String)
  | unauthorized
  | otherError (code : Nat)
deriving DecidableEq, Repr

/-- A rejected promise surfaced to the pipeline caller: either an HTTP error
object, or the error of a failed call to the refresh endpoint. -/
inductive PErr where
  | httpError (resp : Resp)
  | refreshFailed (msg : String)
deriving DecidableEq, Repr

/-- Environment of the pipeline: the reply of the server to the n-th dispatch of
a given request (indexed so a retry can be answered differently), and the
refresh endpoint (`refresh_token` body ↦ new `access_token` or error). -/
structure PipelineEnv where
  dispatch : Nat → Option String → Resp
  refreshEndpoint : String → Except String String

/-- Observable state threaded through one `pipelineSend`:
the store, the Authorization header of each dispatch in order, the body of
each POST to the refresh endpoint in order, the number of redirects to
`/login`, and the number of direct `localStorage.setItem`/`removeItem`
calls executed by the interceptor code in `api.js`. -/
structure PState where
  store : Store
  dispatchLog : List (Option String)
  refreshLog : List String
  redirects : Nat
  storeWrites : Nat
deriving DecidableEq, Repr

/-- Request interceptor of `api.js`: read `accessToken` from localStorage
at dispatch time; attach it as the bearer credential iff present. -/
def pipelineAttach (store : Store) : Option String :=
  store.accessToken

/-- One domain call through the `api` axios instance of `api.js`:
request interceptor, dispatch, then the response interceptor
(401 handler with the `originalRequest._retry` guard).  The replay
`api(originalRequest)` runs the request interceptor again, so its header is
re-read from the store; its 401 is rejected because `_retry` is set. -/
def pipelineSend (env : PipelineEnv) (st : PState) : Except PErr String × PState :=
  let header := pipelineAttach st.store
  let resp := env.dispatch st.dispatchLog.length header
  let st := { st with dispatchLog := st.dispatchLog ++ [header] }
  match resp with
  | .ok body => (.ok body, st)
  | .otherError c => (.error (.httpError (.otherError c)), st)
  | .unauthorized =>
    match st.store.refreshToken with
    | none =>
      -- no refresh token: window.location.href = "/login"; reject original error
      (.error (.httpError .unauthorized), { st with redirects := st.redirects + 1 })
    | some rt =>
      let st := { st with refreshLog := st.refreshLog ++ [rt] }
      match env.refreshEndpoint rt with
      | .ok tok =>
        -- localStorage.setItem("accessToken", tok); header := Bearer tok
        let st := { st with
          store := { st.store with accessToken := some tok },
          storeWrites := st.storeWrites + 1 }
        -- api(originalRequest): request interceptor re-reads the store
        let header2 := pipelineAttach st.store
        let resp2 := env.dispatch st.dispatchLog.length header2
        let st := { st with dispatchLog := st.dispatchLog ++ [header2] }
        match resp2 with
        | .ok body => (.ok body, st)
        | .unauthorized => (.error (.httpError .unauthorized), st)
        | .otherError c => (.error (.httpError (.otherError c)), st)
      | .error e =>
        -- removeItem("accessToken"); removeItem("refreshToken"); redirect; reject
        (.error (.refreshFailed e),
          { st with
            store := { accessToken := none, refreshToken := none },
            storeWrites := st.storeWrites + 2,
            redirects := st.redirects + 1 })

/-! ### Concurrent semantics of the 401 handler

Several domain calls may be in flight; the scheduling model is
single-threaded cooperative, suspending at each network await.  A task that
has received a 401 (with `_retry` unset) runs the handler of `api.js`:
it reads `refreshToken` and sends its own POST to the refresh endpoint —
there is no shared renewal-in-progress marker in the code. -/

/-- Phase of one domain call that has received a 401 response. -/
inductive TaskPhase where
  | got401
  | awaitingRefresh (rt : String)
  | awaitingReplay (header : Option String)
  | succeeded (body : String)
  | failed (e : PErr)
deriving DecidableEq, Repr

/-- Shared state of the concurrent system: the store, the tasks, the bodies
of the refresh POSTs sent so far, and redirects to `/login`. -/
structure CState where
  store : Store
  tasks : List TaskPhase
  refreshLog : List String
  redirects : Nat
deriving DecidableEq, Repr

/-- Environment for the concurrent runs: outcome of a refresh POST, and the
reply of the server to the replay of task `i`, dispatched with a given header. -/
structure CEnv where
  refreshEndpoint : String → Except String String
  replayResp : Nat → Option String → Resp

/-- Run task `i` from its current suspension point to its next one,
executing the 401-handler code of `api.js` for that task. -/
def stepTask (env : CEnv) (s : CState) (i : Nat) : CState :=
  match s.tasks[i]? with
  | none => s
  | some .got401 =>
    -- originalRequest._retry = true; read refreshToken; send own refresh POST
    match s.store.refreshToken with
    | none =>
      { s with tasks := s.tasks.set i (.failed (.httpError .unauthorized)),
               redirects := s.redirects + 1 }
    | some rt =>
      { s with tasks := s.tasks.set i (.awaitingRefresh rt),
               refreshLog := s.refreshLog ++ [rt] }
  | some (.awaitingRefresh rt) =>
    match env.refreshEndpoint rt with
    | .ok tok =>
      -- setItem("accessToken", tok); replay re-reads the store for its header
      let store := { s.store with accessToken := some tok }
      { s with store,
               tasks := s.tasks.set i (.awaitingReplay (pipelineAttach store)) }
    | .error e =>
      { s with store := { accessToken := none, refreshToken := none },
               tasks := s.tasks.set i (.failed (.refreshFailed e)),
               redirects := s.redirects + 1 }
  | some (.awaitingReplay header) =>
    match env.replayResp i header with
    | .ok body => { s with tasks := s.tasks.set i (.succeeded body) }
    | .unauthorized =>
      { s with tasks := s.tasks.set i (.failed (.httpError .unauthorized)) }
    | .otherError c =>
      { s with tasks := s.tasks.set i (.failed (.httpError (.otherError c))) }
  | some (.succeeded _) => s
  | some (.failed _) => s

/-- Run a cooperative schedule: at each step the named task advances to its
next suspension point. -/
def runSchedule (env : CEnv) (s : CState) (sched : List Nat) : CState :=
  sched.foldl (stepTask env) s

/-- N concurrent domain calls that have each received a 401 before any
renewal has completed, with a stored credential pair `(T1, R1)`. -/
def initConc (n : Nat) : CState :=
  { store := { accessToken := some "T1", refreshToken := some "R1" },
    tasks := List.replicate n .got401,
    refreshLog := [],
    redirects := 0 }

/-- Environment in which every renewal succeeds (new token `T2`) and every
replay succeeds. -/
def envConc : CEnv :=
  { refreshEndpoint := fun _ => .ok "T2",
    replayResp := fun _ _ => .ok "ok" }

/-- The single-flight renewal property claimed by the spec: in every
interleaving of N ≥ 2 concurrent callers that each observed a 401 before
any renewal completed, at most one renewal request is ever sent to the
server. -/
def singleFlightRenewal : Prop :=
  ∀ n : Nat, 2 ≤ n → ∀ sched : List Nat,
    (runSchedule envConc (initConc n) sched).refreshLog.length ≤ 1

/-- The claim of the spec that the RequestPipeline never mutates the store
itself: a send performs zero direct `setItem`/`removeItem` calls. -/
def pipelineNeverWritesStore : Prop :=
  ∀ (env : PipelineEnv) (st : PState),
    (pipelineSend env st).2.storeWrites = st.storeWrites

/-! ### SessionManager: the AuthProvider of `AuthContext.js` -/

/-- Claims decoded by `jwt_decode` from an access token:
subject id, email, display name, and expiry (seconds since epoch, compared
against `Date.now() / 1000`). -/
structure Claims where
  sub : String
  email : String
  name : String
  exp : Int
deriving DecidableEq, Repr

/-- The user record held in the auth state. -/
structure User where
  id : String
  email : String
  name : String
deriving DecidableEq, Repr

/-- The React state of the AuthProvider: `user`, `isAuthenticated`,
`loading`, `error`. -/
structure AuthState where
  user : Option User
  isAuthenticated : Bool
  loading : Bool
  error : Option String
deriving DecidableEq, Repr

/-- The client-visible state the AuthProvider code manipulates:
the localStorage token entries plus the React auth state. -/
structure Client where
  store : Store
  auth : AuthState
deriving DecidableEq, Repr

/-- Environment of the AuthProvider: `jwt_decode` (which can throw on a
malformed token), the refresh endpoint, the login endpoint (whose error
carries the optional `err.response?.data?.error` message), and the current
time `Date.now() / 1000`. -/
structure AuthEnv where
  decode : String → Except String Claims
  refreshEndpoint : String → Except String String
  loginEndpoint : String → String → Except (Option String) (String × String × User)
  now : Int

/-- The user record built from decoded claims
(`{ id: decoded.sub, email: decoded.email, name: decoded.name }`). -/
def claimsUser (cl : Claims) : User :=
  { id := cl.sub, email := cl.email, name := cl.name }

/-- `logout` of `AuthContext.js`: best-effort server call (its outcome is
ignored), then remove both token entries, reset `user` to null and
`isAuthenticated` to false.  `error` and `loading` are untouched. -/
def logout (c : Client) : Client :=
  { store := { accessToken := none, refreshToken := none },
    auth := { c.auth with user := none, isAuthenticated := false } }

/-- Result of `refreshAccessToken`: the returned boolean, the resulting
client state, and how many calls reached the refresh endpoint. -/
structure RefreshResult where
  ret : Bool
  client : Client
  refreshCalls : Nat
deriving DecidableEq, Repr

/-- `refreshAccessToken` of `AuthContext.js`: read `refreshToken` (absence
throws, caught by the catch which runs `logout` and returns false); POST it
to the refresh endpoint; on success `setItem("accessToken", tok)`, decode
the new token and set `user` / `isAuthenticated`; any throw (endpoint
failure, malformed token) lands in the catch: `logout`, return false. -/
def refreshAccessToken (env : AuthEnv) (c : Client) : RefreshResult :=
  match c.store.refreshToken with
  | none => { ret := false, client := logout c, refreshCalls := 0 }
  | some rt =>
    match env.refreshEndpoint rt with
    | .error _ => { ret := false, client := logout c, refreshCalls := 1 }
    | .ok tok =>
      let c := { c with store := { c.store with accessToken := some tok } }
      match env.decode tok with
      | .error _ => { ret := false, client := logout c, refreshCalls := 1 }
      | .ok cl =>
        { ret := true,
          client := { c with auth := { c.auth with
            user := some (claimsUser cl), isAuthenticated := true } },
          refreshCalls := 1 }

/-- The initial React state of the AuthProvider at process startup:
no user, not authenticated, loading, no error. -/
def startupAuth : AuthState :=
  { user := none, isAuthenticated := false, loading := true, error := none }

/-- A client at process startup: the persisted store plus the initial
React state. -/
def startupClient (store : Store) : Client :=
  { store := store, auth := startupAuth }

/-- Result of `initAuth`: the resolved client state and how many calls
reached the refresh endpoint. -/
structure InitResult where
  client : Client
  refreshCalls : Nat
deriving DecidableEq, Repr

/-- `initAuth` of `AuthContext.js`, run at startup from the persisted
store: if either token entry is absent, stop (state stays unauthenticated);
else decode the access token (a throw is caught: `logout`); if the decoded
expiry is before now, `await refreshAccessToken()`; otherwise set
`user` / `isAuthenticated` from the decoded claims.  `finally` clears
`loading`. -/
def initAuth (env : AuthEnv) (store : Store) : InitResult :=
  let c := startupClient store
  match store.accessToken, store.refreshToken with
  | some tok, some _ =>
    (match env.decode tok with
     | .error _ =>
       let c := logout c
       { client := { c with auth := { c.auth with loading := false } },
         refreshCalls := 0 }
     | .ok cl =>
       if cl.exp < env.now then
         let r := refreshAccessToken env c
         { client := { r.client with auth := { r.client.auth with loading := false } },
           refreshCalls := r.refreshCalls }
       else
         { client := { c with auth := { c.auth with
             user := some (claimsUser cl), isAuthenticated := true,
             loading := false } },
           refreshCalls := 0 })
  | _, _ =>
    { client := { c with auth := { c.auth with loading := false } },
      refreshCalls := 0 }

/-- Result of `login`: the returned boolean, the storage (`none` when the
underlying localStorage is unavailable), the React auth state, and how many
calls reached the login endpoint. -/
structure LoginResult where
  ret : Bool
  storage : Option Store
  auth : AuthState
  loginCalls : Nat
deriving DecidableEq, Repr

/-- `login` of `AuthContext.js`, with the availability of localStorage
explicit (`storage = none` models an unavailable localStorage whose
`setItem` throws).  `setError(null); setLoading(true)`; call the login
endpoint; on success store both tokens — if `setItem` throws, the generic
catch sets the fallback message and returns false — then set `user` and
`isAuthenticated`; on endpoint failure set the server-derived message.
`finally` clears `loading`. -/
def loginStorage (env : AuthEnv) (storage : Option Store) (auth : AuthState)
    (email password : String) : LoginResult :=
  let auth := { auth with error := none, loading := true }
  match env.loginEndpoint email password with
  | .error msg =>
    { ret := false, storage := storage,
      auth := { auth with error := some (msg.getD "Login failed"), loading := false },
      loginCalls := 1 }
  | .ok (tok, rtok, u) =>
    match storage with
    | none =>
      -- localStorage.setItem throws; err.response?.data?.error is undefined
      { ret := false, storage := none,
        auth := { auth with error := some "Login failed", loading := false },
        loginCalls := 1 }
    | some _ =>
      { ret := true,
        storage := some { accessToken := some tok, refreshToken := some rtok },
        auth := { auth with
          user := some u, isAuthenticated := true, loading := false },
        loginCalls := 1 }

/-- `login` when localStorage is available. -/
def login (env : AuthEnv) (c : Client) (email password : String) : LoginResult :=
  loginStorage env (some c.store) c.auth email password

/-- The claim of the spec that a successful `refresh` replaces the credential
pair wholesale: the persisted pair is then the new pair obtained from the
renewal, hence determined by the renewal alone and independent of the
previously stored pair. -/
def refreshReplacesWholesale : Prop :=
  ∀ (env : AuthEnv) (c₁ c₂ : Client),
    (refreshAccessToken env c₁).ret = true →
    (refreshAccessToken env c₂).ret = true →
    (refreshAccessToken env c₁).client.store = (refreshAccessToken env c₂).client.store

/-- The claim of the spec that the authorization credential is attached if and
only if the session is Authenticated. -/
def attachIffAuthenticated : Prop :=
  ∀ c : Client, (pipelineAttach c.store).isSome = true ↔ c.auth.isAuthenticated = true

/-- The claim of the spec that with localStorage unavailable the core degrades
to memory-only operation: a login accepted by the server still succeeds and
establishes an authenticated in-memory session. -/
def storageUnavailableMemoryOnly : Prop :=
  ∀ (env : AuthEnv) (auth : AuthState) (email password tok rtok : String) (u : User),
    env.loginEndpoint email password = .ok (tok, rtok, u) →
    (loginStorage env none auth email password).ret = true ∧
    (loginStorage env none auth email password).auth.isAuthenticated = true

/-! ## Helper lemmas on lists -/

theorem replicate_append_get {α : Type} (k : Nat) (a g : α) (t : List α) :
    (List.replicate k a ++ g :: t)[k]? = some g := by
  induction k with
  | zero => simp
  | succ k ih => simpa [List.replicate_succ] using ih

theorem replicate_append_set {α : Type} (k : Nat) (a b g : α) (t : List α) :
    (List.replicate k a ++ g :: t).set k b = List.replicate k a ++ b :: t := by
  induction k with
  | zero => rfl
  | succ k ih => simp [List.replicate_succ, ih]

theorem replicate_append_cons {α : Type} (k : Nat) (a : α) (t : List α) :
    List.replicate k a ++ a :: t = List.replicate (k + 1) a ++ t := by
  induction k with
  | zero => rfl
  | succ k ih => simp [List.replicate_succ, ih]

/-- Running the 401 handler of each of `m` pending tasks, in order, sends
one refresh POST per task: the code contains no shared renewal-in-progress
marker, so no handler ever observes that another renewal is in flight. -/
theorem runSchedule_range_got401 (m : Nat) :
    ∀ (k : Nat) (log : List String) (red : Nat),
    runSchedule envConc
      { store := ⟨some "T1", some "R1"⟩,
        tasks := List.replicate k (.awaitingRefresh "R1") ++ List.replicate m .got401,
        refreshLog := log, redirects := red }
      (List.range' k m) =
      { store := ⟨some "T1", some "R1"⟩,
        tasks := List.replicate (k + m) (.awaitingRefresh "R1"),
        refreshLog := log ++ List.replicate m "R1", redirects := red } := by
  induction m with
  | zero => intro k log red; simp [runSchedule, List.range']
  | succ m ih =>
    intro k log red
    have hstep : stepTask envConc
        { store := ⟨some "T1", some "R1"⟩,
          tasks := List.replicate k (TaskPhase.awaitingRefresh "R1")
                     ++ List.replicate (m + 1) TaskPhase.got401,
          refreshLog := log, redirects := red } k =
        { store := ⟨some "T1", some "R1"⟩,
          tasks := List.replicate (k + 1) (TaskPhase.awaitingRefresh "R1")
                     ++ List.replicate m TaskPhase.got401,
          refreshLog := log ++ ["R1"], redirects := red } := by
      have hget : (List.replicate k (TaskPhase.awaitingRefresh "R1") ++
          TaskPhase.got401 :: List.replicate m TaskPhase.got401)[k]?
          = some TaskPhase.got401 := replicate_append_get _ _ _ _
      simp only [List.replicate_succ]
      simp only [stepTask, hget]
      simp [replicate_append_set, replicate_append_cons, List.replicate_succ]
    have h1 : runSchedule envConc
        { store := ⟨some "T1", some "R1"⟩,
          tasks := List.replicate k (TaskPhase.awaitingRefresh "R1")
                     ++ List.replicate (m + 1) TaskPhase.got401,
          refreshLog := log, redirects := red }
        (List.range' k (m + 1)) =
        runSchedule envConc
          (stepTask envConc
            { store := ⟨some "T1", some "R1"⟩,
              tasks := List.replicate k (TaskPhase.awaitingRefresh "R1")
                         ++ List.replicate (m + 1) TaskPhase.got401,
              refreshLog := log, redirects := red } k)
          (List.range' (k + 1) m) := rfl
    rw [h1, hstep, ih (k + 1) (log ++ ["R1"]) red]
    congr 1
    · congr 1
      omega
    · simp [List.replicate_succ]

/-! ## Claim C1 -/

/-- Claim C1 counterexample: two concurrent domain calls that both received
a 401 before any renewal completed send TWO renewal requests to the server
(schedule: both 401 handlers run before either refresh response arrives),
refuting the single-flight renewal invariant. -/
theorem not_singleFlightRenewal : ¬ singleFlightRenewal := fun h =>
  absurd (h 2 (by decide) [0, 1]) (by decide)

/-- Claim C1 (amended): N concurrent domain calls that each receive a 401
before any renewal has completed each issue their own renewal request — in
the interleaving where all N handlers run before any renewal resolves,
N renewal requests are sent to the server. -/
theorem concurrent_401s_each_send_own_renewal (n : Nat) (_h : 2 ≤ n) :
    (runSchedule envConc (initConc n) (List.range n)).refreshLog.length = n := by
  have e1 : initConc n =
      { store := ⟨some "T1", some "R1"⟩,
        tasks := List.replicate 0 (TaskPhase.awaitingRefresh "R1")
                   ++ List.replicate n TaskPhase.got401,
        refreshLog := [], redirects := 0 } := rfl
  rw [List.range_eq_range', e1, runSchedule_range_got401 n 0 [] 0]
  simp

/-- Witness for the amended C1 theorem at N = 2. -/
theorem concurrent_401s_each_send_own_renewal_witness :
    2 ≤ 2 ∧ (runSchedule envConc (initConc 2) (List.range 2)).refreshLog.length = 2 :=
  ⟨by decide, concurrent_401s_each_send_own_renewal 2 (by decide)⟩

/-! ## Claim C2 -/

/-- Claim C2: a domain call whose replay after renewal also returns an
authorization failure performs exactly one renewal and exactly one replay
in total, then rejects with the 401 error and attempts no second renewal
(the `_retry` guard). -/
theorem pipeline_double_401_single_renewal_single_replay
    (env : PipelineEnv) (st : PState) (rt tok : String)
    (h1 : st.store.refreshToken = some rt)
    (h2 : env.dispatch st.dispatchLog.length (pipelineAttach st.store) = .unauthorized)
    (h3 : env.refreshEndpoint rt = .ok tok)
    (h4 : env.dispatch (st.dispatchLog.length + 1) (some tok) = .unauthorized) :
    (pipelineSend env st).1 = .error (.httpError .unauthorized) ∧
    (pipelineSend env st).2.refreshLog = st.refreshLog ++ [rt] ∧
    (pipelineSend env st).2.dispatchLog
      = st.dispatchLog ++ [pipelineAttach st.store, some tok] := by
  have h2' : env.dispatch st.dispatchLog.length st.store.accessToken = .unauthorized := h2
  simp [pipelineSend, pipelineAttach, h1, h2', h3, h4]

/-- Witness for the C2 theorem. -/
theorem pipeline_double_401_single_renewal_single_replay_witness :
    (pipelineSend ⟨fun _ _ => .unauthorized, fun _ => .ok "T2"⟩
        ⟨⟨some "T1", some "R1"⟩, [], [], 0, 0⟩).1
      = .error (.httpError .unauthorized) ∧
    (pipelineSend ⟨fun _ _ => .unauthorized, fun _ => .ok "T2"⟩
        ⟨⟨some "T1", some "R1"⟩, [], [], 0, 0⟩).2.refreshLog = ["R1"] ∧
    (pipelineSend ⟨fun _ _ => .unauthorized, fun _ => .ok "T2"⟩
        ⟨⟨some "T1", some "R1"⟩, [], [], 0, 0⟩).2.dispatchLog
      = [some "T1", some "T2"] := by
  simpa using pipeline_double_401_single_renewal_single_replay
    ⟨fun _ _ => .unauthorized, fun _ => .ok "T2"⟩
    ⟨⟨some "T1", some "R1"⟩, [], [], 0, 0⟩ "R1" "T2" rfl rfl rfl rfl

/-! ## Claim C10 -/

/-- Claim C10: a domain call that receives a 401 while no refresh token is
stored rejects with the original authorization error, sends no renewal
request, redirects to the login page, and leaves the store unchanged. -/
theorem pipeline_401_without_refresh_token_rejects_without_renewal
    (env : PipelineEnv) (st : PState)
    (h1 : st.store.refreshToken = none)
    (h2 : env.dispatch st.dispatchLog.length (pipelineAttach st.store) = .unauthorized) :
    (pipelineSend env st).1 = .error (.httpError .unauthorized) ∧
    (pipelineSend env st).2.refreshLog = st.refreshLog ∧
    (pipelineSend env st).2.redirects = st.redirects + 1 ∧
    (pipelineSend env st).2.store = st.store := by
  simp [pipelineSend, h1, h2]

/-- Witness for the C10 theorem. -/
theorem pipeline_401_without_refresh_token_witness :
    (pipelineSend ⟨fun _ _ => .unauthorized, fun _ => .ok "T2"⟩
        ⟨⟨some "T1", none⟩, [], [], 0, 0⟩).1
      = .error (.httpError .unauthorized) ∧
    (pipelineSend ⟨fun _ _ => .unauthorized, fun _ => .ok "T2"⟩
        ⟨⟨some "T1", none⟩, [], [], 0, 0⟩).2.refreshLog = [] ∧
    (pipelineSend ⟨fun _ _ => .unauthorized, fun _ => .ok "T2"⟩
        ⟨⟨some "T1", none⟩, [], [], 0, 0⟩).2.redirects = 1 ∧
    (pipelineSend ⟨fun _ _ => .unauthorized, fun _ => .ok "T2"⟩
        ⟨⟨some "T1", none⟩, [], [], 0, 0⟩).2.store = ⟨some "T1", none⟩ := by
  simpa using pipeline_401_without_refresh_token_rejects_without_renewal
    ⟨fun _ _ => .unauthorized, fun _ => .ok "T2"⟩
    ⟨⟨some "T1", none⟩, [], [], 0, 0⟩ rfl rfl

/-! ## Claim C3 -/

/-- Claim C3 counterexample: a domain call that receives a 401 and renews
performs a direct localStorage write from the interceptor code of `api.js`,
refuting the claim that the RequestPipeline never writes the store. -/
theorem not_pipelineNeverWritesStore : ¬ pipelineNeverWritesStore := fun h =>
  absurd
    (h ⟨fun _ _ => .unauthorized, fun _ => .ok "T2"⟩ ⟨⟨some "T1", some "R1"⟩, [], [], 0, 0⟩)
    (by decide)

/-- Claim C3 (amended): on a 401 the RequestPipeline performs its own
renewal (its own POST to the refresh endpoint) and writes the store
directly: one `setItem` of the new access token when the renewal succeeds,
and two `removeItem` calls (erasing both tokens) when it fails. -/
theorem pipeline_writes_store_directly_on_renewal
    (env : PipelineEnv) (st : PState) (rt : String)
    (h1 : st.store.refreshToken = some rt)
    (h2 : env.dispatch st.dispatchLog.length (pipelineAttach st.store) = .unauthorized) :
    (∀ tok, env.refreshEndpoint rt = .ok tok →
      (pipelineSend env st).2.storeWrites = st.storeWrites + 1 ∧
      (pipelineSend env st).2.store.accessToken = some tok ∧
      (pipelineSend env st).2.store.refreshToken = some rt ∧
      (pipelineSend env st).2.refreshLog = st.refreshLog ++ [rt]) ∧
    (∀ e, env.refreshEndpoint rt = .error e →
      (pipelineSend env st).2.storeWrites = st.storeWrites + 2 ∧
      (pipelineSend env st).2.store = ⟨none, none⟩ ∧
      (pipelineSend env st).2.refreshLog = st.refreshLog ++ [rt]) := by
  have h2' : env.dispatch st.dispatchLog.length st.store.accessToken = .unauthorized := h2
  constructor
  · intro tok h3
    cases h4 : env.dispatch (st.dispatchLog.length + 1) (some tok) <;>
      simp [pipelineSend, pipelineAttach, h1, h2', h3, h4]
  · intro e h3
    simp [pipelineSend, h1, h2, h3]

/-- Witness for the amended C3 theorem. -/
theorem pipeline_writes_store_directly_witness :
    (pipelineSend ⟨fun _ _ => .unauthorized, fun _ => .ok "T2"⟩
        ⟨⟨some "T1", some "R1"⟩, [], [], 0, 0⟩).2.storeWrites = 1 ∧
    (pipelineSend ⟨fun _ _ => .unauthorized, fun _ => .ok "T2"⟩
        ⟨⟨some "T1", some "R1"⟩, [], [], 0, 0⟩).2.store.accessToken = some "T2" := by
  have h := (pipeline_writes_store_directly_on_renewal
    ⟨fun _ _ => .unauthorized, fun _ => .ok "T2"⟩
    ⟨⟨some "T1", some "R1"⟩, [], [], 0, 0⟩ "R1" rfl rfl).1 "T2" rfl
  exact ⟨h.1, h.2.1⟩

/-! ## Claim C8 -/

/-- Claim C8 counterexample: at process startup with a persisted credential
pair, the session is not yet Authenticated (initial React state) but the
request interceptor still attaches the stored access token — attachment is
governed by token presence in the store, not by the session state. -/
theorem not_attachIffAuthenticated : ¬ attachIffAuthenticated := fun h =>
  absurd ((h (startupClient ⟨some "T1", some "R1"⟩)).mp rfl) (by decide)

/-- Claim C8 (amended): the credential attached at each dispatch is the
access token read fresh from the store at that dispatch (attached iff a
token is present in the store); after a successful renewal the replay is
dispatched with the newly persisted token — no pre-renewal token is used
once the renewal has completed. -/
theorem replay_uses_newly_persisted_token
    (env : PipelineEnv) (st : PState) (rt tok : String)
    (h1 : st.store.refreshToken = some rt)
    (h2 : env.dispatch st.dispatchLog.length (pipelineAttach st.store) = .unauthorized)
    (h3 : env.refreshEndpoint rt = .ok tok) :
    pipelineAttach st.store = st.store.accessToken ∧
    (pipelineSend env st).2.dispatchLog
      = st.dispatchLog ++ [st.store.accessToken, some tok] ∧
    (pipelineSend env st).2.store.accessToken = some tok := by
  have h2' : env.dispatch st.dispatchLog.length st.store.accessToken = .unauthorized := h2
  refine ⟨rfl, ?_⟩
  cases h4 : env.dispatch (st.dispatchLog.length + 1) (some tok) <;>
    simp [pipelineSend, pipelineAttach, h1, h2', h3, h4]

/-- Witness for the amended C8 theorem. -/
theorem replay_uses_newly_persisted_token_witness :
    (pipelineSend ⟨fun _ _ => .unauthorized, fun _ => .ok "T2"⟩
        ⟨⟨some "T1", some "R1"⟩, [], [], 0, 0⟩).2.dispatchLog
      = [some "T1", some "T2"] ∧
    (pipelineSend ⟨fun _ _ => .unauthorized, fun _ => .ok "T2"⟩
        ⟨⟨some "T1", some "R1"⟩, [], [], 0, 0⟩).2.store.accessToken = some "T2" := by
  have h := replay_uses_newly_persisted_token
    ⟨fun _ _ => .unauthorized, fun _ => .ok "T2"⟩
    ⟨⟨some "T1", some "R1"⟩, [], [], 0, 0⟩ "R1" "T2" rfl rfl rfl
  exact ⟨h.2.1, h.2.2⟩

/-! ## Claim C4 -/

/-- Claim C4 counterexample: two clients that differ only in the stored
refresh token, refreshed successfully against the same server, end with
different persisted pairs — the pair after a successful refresh depends on
the previously stored refresh token, so the pair is not replaced wholesale
(the refresh response carries no refresh token and the old one is kept). -/
theorem not_refreshReplacesWholesale : ¬ refreshReplacesWholesale := fun h =>
  absurd
    (h ⟨fun _ => .ok ⟨"1", "a@b.com", "A", 9999⟩, fun _ => .ok "T2", fun _ _ => .error none, 0⟩
       ⟨⟨some "T1", some "R1"⟩, ⟨none, false, false, none⟩⟩
       ⟨⟨some "T1", some "R9"⟩, ⟨none, false, false, none⟩⟩ rfl rfl)
    (by decide)

/-- Claim C4 (amended): on every successful refresh only the access token
is replaced in the store — the previously stored refresh token is retained
unchanged — the session becomes Authenticated with user claims decoded from
the new access token, and refresh returns success. -/
theorem refresh_success_replaces_access_token_only
    (env : AuthEnv) (c : Client) (rt tok : String) (cl : Claims)
    (h1 : c.store.refreshToken = some rt)
    (h2 : env.refreshEndpoint rt = .ok tok)
    (h3 : env.decode tok = .ok cl) :
    (refreshAccessToken env c).ret = true ∧
    (refreshAccessToken env c).client.store.accessToken = some tok ∧
    (refreshAccessToken env c).client.store.refreshToken = some rt ∧
    (refreshAccessToken env c).client.auth.user = some (claimsUser cl) ∧
    (refreshAccessToken env c).client.auth.isAuthenticated = true := by
  simp [refreshAccessToken, h1, h2, h3]

/-- Witness for the amended C4 theorem. -/
theorem refresh_success_replaces_access_token_only_witness :
    (refreshAccessToken
        ⟨fun _ => .ok ⟨"1", "a@b.com", "A", 9999⟩, fun _ => .ok "T2", fun _ _ => .error none, 0⟩
        ⟨⟨some "T1", some "R1"⟩, ⟨none, false, false, none⟩⟩).ret = true ∧
    (refreshAccessToken
        ⟨fun _ => .ok ⟨"1", "a@b.com", "A", 9999⟩, fun _ => .ok "T2", fun _ _ => .error none, 0⟩
        ⟨⟨some "T1", some "R1"⟩, ⟨none, false, false, none⟩⟩).client.store.refreshToken
      = some "R1" := by
  have h := refresh_success_replaces_access_token_only
    ⟨fun _ => .ok ⟨"1", "a@b.com", "A", 9999⟩, fun _ => .ok "T2", fun _ _ => .error none, 0⟩
    ⟨⟨some "T1", some "R1"⟩, ⟨none, false, false, none⟩⟩ "R1" "T2"
    ⟨"1", "a@b.com", "A", 9999⟩ rfl rfl rfl
  exact ⟨h.1, h.2.2.1⟩

/-! ## Claim C5 -/

/-- Claim C5: when the server rejects the stored refresh token, refresh
returns failure, both store entries end removed, the session ends
Unauthenticated with no user, and exactly one refresh request was made (no
automatic retry). -/
theorem refresh_failure_clears_store_and_session
    (env : AuthEnv) (c : Client) (rt e : String)
    (h1 : c.store.refreshToken = some rt)
    (h2 : env.refreshEndpoint rt = .error e) :
    (refreshAccessToken env c).ret = false ∧
    (refreshAccessToken env c).client.store.accessToken = none ∧
    (refreshAccessToken env c).client.store.refreshToken = none ∧
    (refreshAccessToken env c).client.auth.isAuthenticated = false ∧
    (refreshAccessToken env c).client.auth.user = none ∧
    (refreshAccessToken env c).refreshCalls = 1 := by
  simp [refreshAccessToken, logout, h1, h2]

/-- Witness for the C5 theorem. -/
theorem refresh_failure_clears_store_and_session_witness :
    (refreshAccessToken
        ⟨fun _ => .ok ⟨"1", "a@b.com", "A", 9999⟩, fun _ => .error "revoked", fun _ _ => .error none, 0⟩
        ⟨⟨some "T1", some "R1"⟩, ⟨none, true, false, none⟩⟩).ret = false ∧
    (refreshAccessToken
        ⟨fun _ => .ok ⟨"1", "a@b.com", "A", 9999⟩, fun _ => .error "revoked", fun _ _ => .error none, 0⟩
        ⟨⟨some "T1", some "R1"⟩, ⟨none, true, false, none⟩⟩).client.store
      = ⟨none, none⟩ ∧
    (refreshAccessToken
        ⟨fun _ => .ok ⟨"1", "a@b.com", "A", 9999⟩, fun _ => .error "revoked", fun _ _ => .error none, 0⟩
        ⟨⟨some "T1", some "R1"⟩, ⟨none, true, false, none⟩⟩).refreshCalls = 1 := by
  have h := refresh_failure_clears_store_and_session
    ⟨fun _ => .ok ⟨"1", "a@b.com", "A", 9999⟩, fun _ => .error "revoked", fun _ _ => .error none, 0⟩
    ⟨⟨some "T1", some "R1"⟩, ⟨none, true, false, none⟩⟩ "R1" "revoked" rfl rfl
  refine ⟨h.1, ?_, h.2.2.2.2.2⟩
  have h2 := h.2.1
  have h3 := h.2.2.1
  cases hs : (refreshAccessToken
      ⟨fun _ => .ok ⟨"1", "a@b.com", "A", 9999⟩, fun _ => .error "revoked", fun _ _ => .error none, 0⟩
      ⟨⟨some "T1", some "R1"⟩, ⟨none, true, false, none⟩⟩).client.store with
  | mk a r => rw [hs] at h2 h3; simp at h2 h3; rw [h2, h3]

/-! ## Claim C6 -/

/-- Claim C6: `initAuth` resolves the session at startup: with no stored
pair the state stays Unauthenticated; with a stored pair whose decoded
expiry is in the past exactly one renewal attempt is made before the
session is resolved, and when that renewal fails the store is cleared and
the state is Unauthenticated; with expiry in the future the state becomes
Authenticated with the user claims taken from the decoded token. -/
theorem initAuth_resolves_session (env : AuthEnv) (store : Store) :
    ((store.accessToken = none ∨ store.refreshToken = none) →
      (initAuth env store).client.auth.isAuthenticated = false ∧
      (initAuth env store).client.auth.user = none ∧
      (initAuth env store).client.store = store ∧
      (initAuth env store).refreshCalls = 0) ∧
    (∀ tok rt cl, store.accessToken = some tok → store.refreshToken = some rt →
      env.decode tok = .ok cl → cl.exp < env.now →
      (initAuth env store).refreshCalls = 1 ∧
      (∀ e, env.refreshEndpoint rt = .error e →
        (initAuth env store).client.store = ⟨none, none⟩ ∧
        (initAuth env store).client.auth.isAuthenticated = false ∧
        (initAuth env store).client.auth.user = none)) ∧
    (∀ tok rt cl, store.accessToken = some tok → store.refreshToken = some rt →
      env.decode tok = .ok cl → env.now < cl.exp →
      (initAuth env store).client.auth.isAuthenticated = true ∧
      (initAuth env store).client.auth.user = some (claimsUser cl) ∧
      (initAuth env store).refreshCalls = 0) := by
  refine ⟨?_, ?_, ?_⟩
  · rintro (h | h)
    · cases hsr : store.refreshToken <;>
        simp [initAuth, h, hsr, startupClient, startupAuth]
    · cases hsa : store.accessToken <;>
        simp [initAuth, h, hsa, startupClient, startupAuth]
  · rintro tok rt cl h1 h2 h3 h4
    constructor
    · cases h5 : env.refreshEndpoint rt with
      | error e =>
        simp [initAuth, h1, h2, h3, h4, refreshAccessToken, startupClient, h5]
      | ok tok2 =>
        cases h6 : env.decode tok2 <;>
          simp [initAuth, h1, h2, h3, h4, refreshAccessToken, startupClient, h5, h6]
    · rintro e h5
      simp [initAuth, h1, h2, h3, h4, refreshAccessToken, startupClient,
        startupAuth, logout, h5]
  · rintro tok rt cl h1 h2 h3 h4
    have h4' : ¬ (cl.exp < env.now) := by omega
    simp [initAuth, h1, h2, h3, h4', startupClient, startupAuth]

/-- Witness for the C6 theorem: a stored pair whose token expired and whose
refresh token the server rejects resolves to a cleared store with exactly
one renewal attempt. -/
theorem initAuth_resolves_session_witness :
    (initAuth
        ⟨fun _ => .ok ⟨"1", "a@b.com", "A", 0⟩, fun _ => .error "revoked", fun _ _ => .error none, 10⟩
        ⟨some "T1", some "R1"⟩).refreshCalls = 1 ∧
    (initAuth
        ⟨fun _ => .ok ⟨"1", "a@b.com", "A", 0⟩, fun _ => .error "revoked", fun _ _ => .error none, 10⟩
        ⟨some "T1", some "R1"⟩).client.store = ⟨none, none⟩ ∧
    (initAuth
        ⟨fun _ => .ok ⟨"1", "a@b.com", "A", 0⟩, fun _ => .error "revoked", fun _ _ => .error none, 10⟩
        ⟨some "T1", some "R1"⟩).client.auth.isAuthenticated = false := by
  have h := (initAuth_resolves_session
    ⟨fun _ => .ok ⟨"1", "a@b.com", "A", 0⟩, fun _ => .error "revoked", fun _ _ => .error none, 10⟩
    ⟨some "T1", some "R1"⟩).2.1 "T1" "R1" ⟨"1", "a@b.com", "A", 0⟩ rfl rfl rfl (by decide)
  exact ⟨h.1, (h.2 "revoked" rfl).1, (h.2 "revoked" rfl).2.1⟩

/-! ## Claim C7 -/

/-- Claim C7: a failed login records an error message derived from the
reported reason of the server (with a generic fallback), returns failure
after exactly one login request, and leaves the user, the authenticated
flag and the stored credential pair unchanged. -/
theorem login_failure_preserves_session
    (env : AuthEnv) (c : Client) (email password : String) (msg : Option String)
    (h : env.loginEndpoint email password = .error msg) :
    (login env c email password).ret = false ∧
    (login env c email password).storage = some c.store ∧
    (login env c email password).auth.user = c.auth.user ∧
    (login env c email password).auth.isAuthenticated = c.auth.isAuthenticated ∧
    (login env c email password).auth.error = some (msg.getD "Login failed") ∧
    (login env c email password).loginCalls = 1 := by
  simp [login, loginStorage, h]

/-- Witness for the C7 theorem: a rejected login against a previously
authenticated session. -/
theorem login_failure_preserves_session_witness :
    (login
        ⟨fun _ => .error "x", fun _ => .error "x", fun _ _ => .error (some "Invalid credentials"), 0⟩
        ⟨⟨some "T1", some "R1"⟩, ⟨some ⟨"1", "a@b.com", "A"⟩, true, false, none⟩⟩
        "a@b.com" "wrong").ret = false ∧
    (login
        ⟨fun _ => .error "x", fun _ => .error "x", fun _ _ => .error (some "Invalid credentials"), 0⟩
        ⟨⟨some "T1", some "R1"⟩, ⟨some ⟨"1", "a@b.com", "A"⟩, true, false, none⟩⟩
        "a@b.com" "wrong").storage = some ⟨some "T1", some "R1"⟩ ∧
    (login
        ⟨fun _ => .error "x", fun _ => .error "x", fun _ _ => .error (some "Invalid credentials"), 0⟩
        ⟨⟨some "T1", some "R1"⟩, ⟨some ⟨"1", "a@b.com", "A"⟩, true, false, none⟩⟩
        "a@b.com" "wrong").auth.isAuthenticated = true ∧
    (login
        ⟨fun _ => .error "x", fun _ => .error "x", fun _ _ => .error (some "Invalid credentials"), 0⟩
        ⟨⟨some "T1", some "R1"⟩, ⟨some ⟨"1", "a@b.com", "A"⟩, true, false, none⟩⟩
        "a@b.com" "wrong").auth.error = some "Invalid credentials" := by
  have h := login_failure_preserves_session
    ⟨fun _ => .error "x", fun _ => .error "x", fun _ _ => .error (some "Invalid credentials"), 0⟩
    ⟨⟨some "T1", some "R1"⟩, ⟨some ⟨"1", "a@b.com", "A"⟩, true, false, none⟩⟩
    "a@b.com" "wrong" (some "Invalid credentials") rfl
  exact ⟨h.1, h.2.1, h.2.2.2.1, h.2.2.2.2.1⟩

/-! ## Claim C9 -/

/-- Claim C9 counterexample: with localStorage unavailable, a login that
the server accepts still returns failure and leaves the session
unauthenticated — the generic catch swallows the storage throw as a login
failure, so the core does not continue in memory-only mode. -/
theorem not_storageUnavailableMemoryOnly : ¬ storageUnavailableMemoryOnly := fun h =>
  absurd
    ((h ⟨fun _ => .error "x", fun _ => .error "x",
          fun _ _ => .ok ("T1", "R1", ⟨"1", "a@b.com", "A"⟩), 0⟩
        startupAuth "a@b.com" "pw" "T1" "R1" ⟨"1", "a@b.com", "A"⟩ rfl).1)
    (by decide)

/-- Claim C9 (amended): when localStorage is unavailable its accesses
throw, and the generic error handling of each operation treats that as
operation failure: a login whose server call succeeds returns failure with
the fallback message, leaving the session state unchanged — there is no
`StorageUnavailable` error distinct from other failures and no memory-only
continuation. -/
theorem login_storage_unavailable_returns_failure
    (env : AuthEnv) (auth : AuthState) (email password tok rtok : String) (u : User)
    (h : env.loginEndpoint email password = .ok (tok, rtok, u)) :
    (loginStorage env none auth email password).ret = false ∧
    (loginStorage env none auth email password).storage = none ∧
    (loginStorage env none auth email password).auth.isAuthenticated = auth.isAuthenticated ∧
    (loginStorage env none auth email password).auth.user = auth.user ∧
    (loginStorage env none auth email password).auth.error = some "Login failed" := by
  simp [loginStorage, h]

/-- Witness for the amended C9 theorem. -/
theorem login_storage_unavailable_returns_failure_witness :
    (loginStorage
        ⟨fun _ => .error "x", fun _ => .error "x",
          fun _ _ => .ok ("T1", "R1", ⟨"1", "a@b.com", "A"⟩), 0⟩
        none startupAuth "a@b.com" "pw").ret = false ∧
    (loginStorage
        ⟨fun _ => .error "x", fun _ => .error "x",
          fun _ _ => .ok ("T1", "R1", ⟨"1", "a@b.com", "A"⟩), 0⟩
        none startupAuth "a@b.com" "pw").auth.isAuthenticated = false ∧
    (loginStorage
        ⟨fun _ => .error "x", fun _ => .error "x",
          fun _ _ => .ok ("T1", "R1", ⟨"1", "a@b.com", "A"⟩), 0⟩
        none startupAuth "a@b.com" "pw").auth.error = some "Login failed" := by
  have h := login_storage_unavailable_returns_failure
    ⟨fun _ => .error "x", fun _ => .error "x",
      fun _ _ => .ok ("T1", "R1", ⟨"1", "a@b.com", "A"⟩), 0⟩
    startupAuth "a@b.com" "pw" "T1" "R1" ⟨"1", "a@b.com", "A"⟩ rfl
  exact ⟨h.1, h.2.2.1, h.2.2.2.2⟩

end TradingApp
